import Mathlib

/-!
Shallow embedding of the `jump` SSH connection manager (`src/main.rs`)
together with proofs about its credential codec, profile store and
connection dispatcher.

Modelling conventions.  Rust strings are modelled as Lean `String`.
`PathBuf` values are modelled as `String`, because every path the program
ever builds comes from a UTF-8 `&str` (`parse_ssh_path` and
`PathBuf::from_str` in the decoder), so `PathBuf::to_str` always succeeds
on them.  The SQLite table created by `initialize` is modelled as a list
of rows in insertion order; the schema constraint
`server_name text not null unique` is reflected in the model of `INSERT`.
A Rust panic is modelled as `Option.none` (in the decoder) or as a
distinguished error value.  `u32` is modelled as `Nat`; no arithmetic in
the program can overflow a `u32`, so the width only appears as a bound
where a theorem needs it.
-/

namespace Jump

/-- The `SSHKey` struct of src/main.rs: the key-auth payload. -/
structure SSHKey where
  path : String
deriving DecidableEq, Repr

/-- The `Password` struct of src/main.rs: the password-auth payload. -/
structure Password where
  password : String
deriving DecidableEq, Repr

/-- The `ConnectMethods` enum of src/main.rs: a tagged union of the two
authentication methods. -/
inductive ConnectMethods where
  | SSHKey (key : SSHKey)
  | Password (p : Password)
deriving DecidableEq, Repr

/-- The `Server` struct of src/main.rs.  `port` is a `u32` in the source,
modelled as `Nat`. -/
structure Server where
  server_name : String
  username : String
  server_address : String
  port : Nat
  method : ConnectMethods
deriving DecidableEq, Repr

/-- Splits a list of characters at every occurrence of `c`, keeping empty
chunks, with the semantics of Rust `str::split` for a one-character
pattern: the result is always non-empty, and splitting a list without `c`
yields the singleton chunk. -/
def splitChar (c : Char) : List Char → List (List Char)
  | [] => [[]]
  | x :: xs =>
    if x = c then
      [] :: splitChar c xs
    else
      match splitChar c xs with
      | [] => [[x]]
      | y :: ys => (x :: y) :: ys

/-- Rust `s.split(c).collect::<Vec<_>>()` on a string. -/
def rustSplit (c : Char) (s : String) : List String :=
  (splitChar c s.data).map (fun l => String.mk l)

/-- Embeds `impl Display for ConnectMethods` (src/main.rs lines 70 to 79): the
persisted token, `ssh:` followed by the key path, or `pass:` followed by
the password. -/
def ConnectMethods.toString : ConnectMethods → String
  | .SSHKey key => "ssh:" ++ key.path
  | .Password p => "pass:" ++ p.password

/-- Embeds `impl From<String> for ConnectMethods` (src/main.rs lines 81 to 93).
The source splits the token at every `:` into a vector `v` and then reads
`v[0]` and `v[1]`: only the chunk between the first and the second colon
survives as payload.  Indexing `v[1]` on a token holding no colon panics
(index out of bounds), modelled here as `none`. -/
def ConnectMethods.fromString (method : String) : Option ConnectMethods :=
  match rustSplit ':' method with
  | v0 :: v1 :: _ =>
    if v0 = "ssh" then
      some (ConnectMethods.SSHKey ⟨v1⟩)
    else
      some (ConnectMethods.Password ⟨v1⟩)
  | _ => none

/-- One row of the `jump_servers` table: the columns written by
`add_server`, with `method` stored as the encoded text token. -/
structure Row where
  server_name : String
  username : String
  server_address : String
  port : Nat
  method : String
deriving DecidableEq, Repr

/-- The error conditions surfaced (or, for `DecodePanic`, the panic hit)
by the store and the dispatcher. -/
inductive JumpError where
  | DuplicateServerName
  | ServerNotFound
  | DecodePanic
  | LaunchFailed
deriving DecidableEq, Repr

/-- The table setup of src/main.rs lines 110 to 122 (named `initialize`
there, a reserved word in Lean): `create table if not exists` keeps an
existing table and otherwise creates an empty one. -/
def initStore (db : Option (List Row)) : List Row := db.getD []

/-- Embeds `add_server` (src/main.rs lines 124 to 130): an SQL `INSERT` into
`jump_servers`.  The schema from `initialize` declares `server_name`
unique, so the insert fails on a duplicate name and otherwise appends one
row; `method` is stored via `to_string` (the `Display` impl). -/
def add_server (db : List Row) (server : Server) :
    Except JumpError (List Row) :=
  if db.any (fun r => r.server_name == server.server_name) then
    Except.error JumpError.DuplicateServerName
  else
    Except.ok (db ++ [{ server_name := server.server_name,
                        username := server.username,
                        server_address := server.server_address,
                        port := server.port,
                        method := server.method.toString }])

/-- Embeds `remove_server` (src/main.rs lines 132 to 138): `DELETE FROM
jump_servers WHERE server_name = ?1`.  Deleting zero rows is not an
error. -/
def remove_server (db : List Row) (server_name : String) :
    Except JumpError (List Row) :=
  Except.ok (db.filter (fun r => !(r.server_name == server_name)))

/-- The `query_row` lookup inside `connect_to_server` (src/main.rs lines
164 to 175), the `get` operation of the store: `SELECT ... where
server_name = ?1` returns the first matching row or fails with
`QueryReturnedNoRows` (here `ServerNotFound`); the row closure rebuilds a
`Server`, running the decoder on the stored method text (a decoder panic
is `DecodePanic`). -/
def query_server (db : List Row) (server_name : String) :
    Except JumpError Server :=
  match db.find? (fun r => r.server_name == server_name) with
  | none => Except.error JumpError.ServerNotFound
  | some r =>
    match ConnectMethods.fromString r.method with
    | none => Except.error JumpError.DecodePanic
    | some m =>
      Except.ok { server_name := r.server_name, username := r.username,
                  server_address := r.server_address, port := r.port,
                  method := m }

/-- An external command: program name and argument list, as handed to
`Command::new(...).args(...)`. -/
structure Cmd where
  program : String
  args : List String
deriving DecidableEq, Repr

/-- The command built by `connect_to_server` (src/main.rs lines 177 to
207) from a resolved profile: `sshpass -p <password> ssh -p <port>
<user>@<address>` for password auth, `ssh -i <path> -p <port>
<user>@<address>` for key auth.  The `to_str` call on the key path always
succeeds in this model (paths are UTF-8 strings), so the `InvalidKeyPath`
branch of the source is unreachable here. -/
def dispatchCmd (server : Server) : Cmd :=
  match server.method with
  | .Password p =>
    ⟨"sshpass", ["-p", p.password, "ssh", "-p", Nat.repr server.port,
                 server.username ++ "@" ++ server.server_address]⟩
  | .SSHKey key =>
    ⟨"ssh", ["-i", key.path, "-p", Nat.repr server.port,
             server.username ++ "@" ++ server.server_address]⟩

/-- The outcome of `Command::output()`: either the child was spawned and
ran to completion with some exit code, or the launch itself failed with
an io error. -/
inductive SpawnResult where
  | launched (exitCode : Int)
  | launchFailure
deriving DecidableEq, Repr

/-- Embeds `connect_to_server` (src/main.rs lines 163 to 209), over a spawn
oracle standing for the operating system.  The profile is resolved by
`query_server`; the built command is run with `output()?`, so a launch
failure propagates as an error, while the exit code of a launched child
is bound to `_` and discarded: the function then prints `server
disconnected` and returns Ok whatever that code was. -/
def connect_to_server (spawn : Cmd → SpawnResult) (db : List Row)
    (server_name : String) : Except JumpError Unit :=
  match query_server db server_name with
  | Except.error e => Except.error e
  | Except.ok server =>
    match spawn (dispatchCmd server) with
    | SpawnResult.launchFailure => Except.error JumpError.LaunchFailed
    | SpawnResult.launched _ => Except.ok ()

/-- The `add` arguments as parsed by the CLI layer of src/main.rs: the
`port` argument carries `default_value = "22"` (lines 43 to 44), so a
profile added without a port gets port 22. -/
def mkServer (server_name username server_address : String)
    (port : Option Nat) (method : ConnectMethods) : Server :=
  { server_name := server_name, username := username,
    server_address := server_address, port := port.getD 22,
    method := method }

end Jump

namespace Jump

/-- Helper: if no row of `db` has `server_name` equal to `name`, the
delete filter of `remove_server` keeps every row. -/
theorem filter_eq_self_of_any_false (db : List Row) (name : String)
    (h : db.any (fun r => r.server_name == name) = false) :
    db.filter (fun r => !(r.server_name == name)) = db := by
  induction db with
  | nil => rfl
  | cons r rs ih =>
    rw [List.any_cons, Bool.or_eq_false_iff] at h
    simp [List.filter_cons, h.1, ih h.2]

/-- C1: the round-trip law fails on payloads holding a colon.  The source
decoder keeps only the chunk between the first and the second colon, so
decoding the encoded token of the password p@ss:w0rd (the stored token
pass:p@ss:w0rd) yields the password p@ss, not p@ss:w0rd. -/
theorem decode_encode_colon_password_truncates :
    ConnectMethods.fromString
        (ConnectMethods.toString (ConnectMethods.Password ⟨"p@ss:w0rd"⟩))
      = some (ConnectMethods.Password ⟨"p@ss"⟩) ∧
    ConnectMethods.fromString
        (ConnectMethods.toString (ConnectMethods.Password ⟨"p@ss:w0rd"⟩))
      ≠ some (ConnectMethods.Password ⟨"p@ss:w0rd"⟩) :=
  ⟨rfl, by decide⟩

/-- C2: a token holding no colon does not surface a malformed-token
error: the source indexes chunk `v[1]`, which does not exist, and panics
(index out of bounds), modelled as `none`; the tag `ssh` alone panics the
same way. -/
theorem decode_no_colon_panics :
    ConnectMethods.fromString "nocolon" = none ∧
    ConnectMethods.fromString "ssh" = none :=
  ⟨rfl, rfl⟩

/-- C3: adding a profile whose name is already stored fails with the
duplicate-name error; since the store is only replaced on success, its
contents are exactly those before the call. -/
theorem add_duplicate_fails (db : List Row) (s : Server)
    (h : db.any (fun r => r.server_name == s.server_name) = true) :
    add_server db s = Except.error JumpError.DuplicateServerName := by
  simp [add_server, h]

theorem add_duplicate_fails_witness :
    add_server [⟨"web1", "alice", "10.0.0.5", 22, "ssh:/k"⟩]
        ⟨"web1", "bob", "10.0.0.9", 22, ConnectMethods.Password ⟨"x"⟩⟩
      = Except.error JumpError.DuplicateServerName :=
  add_duplicate_fails _ _ rfl

/-- C4 counterexample: `add_server` accepts a profile whose port is
70000, outside 1 to 65535, and stores that port unchanged. -/
theorem add_accepts_port_70000 :
    add_server [] ⟨"big", "alice", "h", 70000, ConnectMethods.Password ⟨"pw"⟩⟩
      = Except.ok [⟨"big", "alice", "h", 70000, "pass:pw"⟩] ∧
    ¬(1 ≤ 70000 ∧ 70000 ≤ 65535) :=
  ⟨rfl, by decide⟩

/-- C4 amended: `add_server` validates nothing about the port: every u32
value, 0 and values above 65535 included, is accepted when the name is
fresh and is stored unchanged. -/
theorem add_stores_any_port (db : List Row) (s : Server)
    (hport : s.port < 2 ^ 32)
    (hfresh : db.any (fun r => r.server_name == s.server_name) = false) :
    add_server db s
      = Except.ok (db ++ [⟨s.server_name, s.username, s.server_address,
                           s.port, s.method.toString⟩]) := by
  simp [add_server, hfresh]

theorem add_stores_any_port_witness :
    add_server [] ⟨"p0", "u", "h", 0, ConnectMethods.Password ⟨"pw"⟩⟩
      = Except.ok [⟨"p0", "u", "h", 0, "pass:pw"⟩] :=
  add_stores_any_port _ _ (by decide) rfl

end Jump

namespace Jump

/-- A sample stored row and the profile it resolves to, used by the
concrete instantiations below. -/
def sampleRow : Row := ⟨"web1", "alice", "10.0.0.5", 22, "pass:pw"⟩

def sampleServer : Server :=
  ⟨"web1", "alice", "10.0.0.5", 22, ConnectMethods.Password ⟨"pw"⟩⟩

/-- C5: once the profile resolves, the dispatcher returns Ok (the generic
disconnected completion) for every exit code of the launched child, and
returns an error exactly when the launch itself fails. -/
theorem connect_ignores_exit_status (spawn : Cmd → SpawnResult)
    (db : List Row) (name : String) (s : Server)
    (h : query_server db name = Except.ok s) :
    (∀ c : Int, spawn (dispatchCmd s) = SpawnResult.launched c →
        connect_to_server spawn db name = Except.ok ()) ∧
    (spawn (dispatchCmd s) = SpawnResult.launchFailure →
        connect_to_server spawn db name
          = Except.error JumpError.LaunchFailed) := by
  constructor
  · intro c hc
    simp [connect_to_server, h, hc]
  · intro hc
    simp [connect_to_server, h, hc]

theorem connect_ignores_exit_status_witness :
    connect_to_server (fun _ => SpawnResult.launched 1) [sampleRow] "web1"
      = Except.ok () ∧
    connect_to_server (fun _ => SpawnResult.launchFailure) [sampleRow] "web1"
      = Except.error JumpError.LaunchFailed :=
  ⟨(connect_ignores_exit_status (fun _ => SpawnResult.launched 1)
      [sampleRow] "web1" sampleServer rfl).1 1 rfl,
   (connect_ignores_exit_status (fun _ => SpawnResult.launchFailure)
      [sampleRow] "web1" sampleServer rfl).2 rfl⟩

/-- C6: removing an absent name succeeds with the store unchanged, and a
second removal of the same name succeeds with the same unchanged
store. -/
theorem remove_absent_idempotent (db : List Row) (name : String)
    (h : db.any (fun r => r.server_name == name) = false) :
    remove_server db name = Except.ok db ∧
    (remove_server db name).bind (fun db2 => remove_server db2 name)
      = Except.ok db := by
  have hf := filter_eq_self_of_any_false db name h
  refine ⟨?_, ?_⟩
  · simp [remove_server, hf]
  · simp [remove_server, hf, Except.bind]

theorem remove_absent_idempotent_witness :
    remove_server [sampleRow] "ghost" = Except.ok [sampleRow] ∧
    (remove_server [sampleRow] "ghost").bind
        (fun db2 => remove_server db2 "ghost") = Except.ok [sampleRow] :=
  remove_absent_idempotent _ _ rfl

/-- C7: looking a name up when no stored row matches fails with
`ServerNotFound`, and `connect_to_server` propagates exactly that error,
whatever the spawn oracle. -/
theorem lookup_miss_not_found (db : List Row) (name : String)
    (spawn : Cmd → SpawnResult)
    (h : db.find? (fun r => r.server_name == name) = none) :
    query_server db name = Except.error JumpError.ServerNotFound ∧
    connect_to_server spawn db name
      = Except.error JumpError.ServerNotFound := by
  have hq : query_server db name = Except.error JumpError.ServerNotFound := by
    simp [query_server, h]
  exact ⟨hq, by simp [connect_to_server, hq]⟩

theorem lookup_miss_not_found_witness :
    query_server [sampleRow] "ghost" = Except.error JumpError.ServerNotFound ∧
    connect_to_server (fun _ => SpawnResult.launched 0) [sampleRow] "ghost"
      = Except.error JumpError.ServerNotFound :=
  lookup_miss_not_found _ _ _ rfl

/-- C8: adding a profile built without a port stores a row whose port is
22, the default of the CLI port argument. -/
theorem add_default_port (db : List Row)
    (name user addr : String) (m : ConnectMethods)
    (hfresh : db.any (fun r => r.server_name == name) = false) :
    add_server db (mkServer name user addr none m)
      = Except.ok (db ++ [⟨name, user, addr, 22, m.toString⟩]) := by
  simp [add_server, mkServer, hfresh]

theorem add_default_port_witness :
    add_server [] (mkServer "db1" "bob" "10.0.0.9" none
        (ConnectMethods.Password ⟨"pw"⟩))
      = Except.ok [⟨"db1", "bob", "10.0.0.9", 22, "pass:pw"⟩] :=
  add_default_port _ _ _ _ _ rfl

/-- C9: the encoder is total and produces the discriminator-prefixed
token for both variants: `ssh:` followed by the path for key auth,
`pass:` followed by the password for password auth. -/
theorem encode_total (m : ConnectMethods) :
    (∃ k, m = ConnectMethods.SSHKey k ∧
        ConnectMethods.toString m = "ssh:" ++ k.path) ∨
    (∃ p, m = ConnectMethods.Password p ∧
        ConnectMethods.toString m = "pass:" ++ p.password) := by
  cases m with
  | SSHKey k => exact Or.inl ⟨k, rfl, rfl⟩
  | Password p => exact Or.inr ⟨p, rfl, rfl⟩

/-- C10: the exact programs and argument lists built by the dispatcher,
for every resolved profile of either variant. -/
theorem dispatch_arg_lists (n u a : String) (port : Nat)
    (pw kp : String) :
    dispatchCmd ⟨n, u, a, port, ConnectMethods.Password ⟨pw⟩⟩
      = ⟨"sshpass", ["-p", pw, "ssh", "-p", Nat.repr port,
                     u ++ "@" ++ a]⟩ ∧
    dispatchCmd ⟨n, u, a, port, ConnectMethods.SSHKey ⟨kp⟩⟩
      = ⟨"ssh", ["-i", kp, "-p", Nat.repr port, u ++ "@" ++ a]⟩ :=
  ⟨rfl, rfl⟩

end Jump
